import Mathlib

/-!
# Verification of the Placements Agentic RAG orchestration core

This file is a shallow embedding, in Lean 4, of the retrieval-and-orchestration
core of the Placements_Agentic_RAG repository: the JSON extraction of
`agent/llm_client.py`, the planner of `agent/planner.py`, the critic of
`agent/critic.py`, the executor of `agent/executor.py`, the synthesizer of
`agent/synthesizer.py`, the orchestrator of `agent/orchestrator.py`, and the
facts store of `rag/facts_index.py` / `tools/facts_tool.py`.

Python dictionaries flowing between the components (LLM JSON results, tool
`params`, tool `data` payloads, facts records) are modelled by a `Json` value
type; Python floats by `ℚ` (every numeric literal involved is exactly
representable); functions that may raise are modelled in `Except`.
-/

namespace Placements

/-- JSON values, the model of Python dict/list/str/float/bool/None payloads.
Numbers are modelled by `ℚ` (exact for every literal the code manipulates). -/
inductive Json where
  | null : Json
  | bool (b : Bool) : Json
  | num (q : ℚ) : Json
  | str (s : String) : Json
  | arr (elements : List Json) : Json
  | obj (members : List (String × Json)) : Json

namespace Json

/-- Dictionary lookup; as in a Python `dict`, a later binding for the same key
shadows an earlier one. Returns `none` when the key is absent or the value is
not an object (Python would raise there; the embedded code only calls `.get`
on dicts). -/
def get (j : Json) (k : String) : Option Json :=
  match j with
  | .obj kvs => kvs.foldl (fun acc kv => if kv.1 = k then some kv.2 else acc) none
  | _ => none

/-- Python `d.get(k, default)`. -/
def getD (j : Json) (k : String) (default : Json) : Json :=
  (j.get k).getD default

/-- Python `k in d`. -/
def hasKey (j : Json) (k : String) : Bool :=
  (j.get k).isSome

/-- Python truthiness of a JSON value (`bool(x)`). -/
def truthy : Json → Bool
  | .null => false
  | .bool b => b
  | .num q => q ≠ 0
  | .str s => s ≠ ""
  | .arr xs => !xs.isEmpty
  | .obj kvs => !kvs.isEmpty

/-- `d.get(k)` is truthy (Python `if d.get(k):`). -/
def getTruthy (j : Json) (k : String) : Bool :=
  match j.get k with
  | some v => v.truthy
  | none => false

/-- Read a string field, with a default used when the field is absent or not a
string. -/
def getStrD (j : Json) (k : String) (default : String) : String :=
  match j.get k with
  | some (.str s) => s
  | _ => default

/-- Read a string field as an option. -/
def getStr (j : Json) (k : String) : Option String :=
  match j.get k with
  | some (.str s) => some s
  | _ => none

/-- Read a numeric field, with a default. -/
def getNumD (j : Json) (k : String) (default : ℚ) : ℚ :=
  match j.get k with
  | some (.num q) => q
  | _ => default

/-- Read a boolean field, with a default (Python `d.get(k, False)`). -/
def getBoolD (j : Json) (k : String) (default : Bool) : Bool :=
  match j.get k with
  | some (.bool b) => b
  | _ => default

/-- Read an array field as a list, defaulting to `[]`. -/
def getArrD (j : Json) (k : String) : List Json :=
  match j.get k with
  | some (.arr xs) => xs
  | _ => []

/-- Read an array-of-strings field, defaulting to `[]`. -/
def getStrArrD (j : Json) (k : String) : List String :=
  (j.getArrD k).filterMap fun v =>
    match v with
    | .str s => some s
    | _ => none

/-- Is the value a JSON object (Python `isinstance(x, dict)`)? -/
def isObj : Json → Bool
  | .obj _ => true
  | _ => false

end Json

/-! ## String utilities

Models of the Python string operations the core uses: lowercasing,
substring containment (`needle in haystack`), whitespace stripping, digit-run
extraction (`re.findall(r'\d+', s)`). All operate on `List Char`. -/

/-- ASCII lowercase of a string (model of Python `str.lower` on the ASCII
company names and queries the system manipulates). -/
def lowerStr (s : String) : String :=
  String.mk (s.toList.map Char.toLower)

/-- Does `needle` occur as a contiguous substring of `hay`? -/
def subList (needle : List Char) : List Char → Bool
  | [] => needle.isEmpty
  | c :: rest => needle.isPrefixOf (c :: rest) || subList needle rest

/-- Python `needle in haystack` on strings. -/
def containsSub (hay needle : String) : Bool :=
  subList needle.toList hay.toList

/-- Index of the first occurrence of `needle` in `hay`, if any. -/
def findSub (needle : List Char) : List Char → Option Nat
  | [] => if needle.isEmpty then some 0 else none
  | c :: rest =>
    if needle.isPrefixOf (c :: rest) then some 0
    else (findSub needle rest).map (· + 1)

/-- The whitespace characters of the regex class `\s` (ASCII part). -/
def isWsChar (c : Char) : Bool :=
  c = ' ' || c = '\t' || c = '\n' || c = '\r' || c = '\x0b' || c = '\x0c'

/-- Strip `\s*` from both ends of a character list. -/
def stripWs (cs : List Char) : List Char :=
  ((cs.dropWhile isWsChar).reverse.dropWhile isWsChar).reverse

/-- Helper for `digitRuns`: `acc` holds the digits of the current run,
in reverse. -/
def digitRunsAux : List Char → List Char → List String
  | [], acc => if acc.isEmpty then [] else [String.mk acc.reverse]
  | c :: rest, acc =>
    if c.isDigit then digitRunsAux rest (c :: acc)
    else if acc.isEmpty then digitRunsAux rest []
    else String.mk acc.reverse :: digitRunsAux rest []

/-- `re.findall(r'\d+', s)`: the maximal runs of decimal digits of `s`,
in order. -/
def digitRuns (cs : List Char) : List String :=
  digitRunsAux cs []

/-! ## A model of `json.loads`

`agent/llm_client.py` parses LLM output with Python's strict `json.loads`.
The grammar below follows RFC 8259 as `json.loads` implements it: the only
whitespace is space/tab/newline/return, numbers are
`-?(0|[1-9]\d*)(\.\d+)?([eE][-+]?\d+)?` (no leading zeros, no trailing dot,
no lone dot), strings are double-quoted with the standard escapes, and no
trailing commas are accepted in objects or arrays.  The non-standard
`NaN`/`Infinity` extensions of `json.loads` are not modelled (no input in
this development uses them), and a `\uXXXX` escape denoting an invalid
Unicode scalar value is mapped to the null character. -/

namespace JsonParse

/-- The whitespace accepted between JSON tokens (space, tab, newline,
carriage return). -/
def skipWs (cs : List Char) : List Char :=
  cs.dropWhile fun c => c = ' ' || c = '\t' || c = '\n' || c = '\r'

/-- Decimal digits to a natural number. -/
def digitsToNat (ds : List Char) : Nat :=
  ds.foldl (fun n c => 10 * n + (c.toNat - 48)) 0

/-- Hex digit value. -/
def hexVal (c : Char) : Option Nat :=
  if c.isDigit then some (c.toNat - 48)
  else if 'a' ≤ c && c ≤ 'f' then some (c.toNat - 87)
  else if 'A' ≤ c && c ≤ 'F' then some (c.toNat - 55)
  else none

/-- Parse the integer part of a JSON number: `0` or `[1-9][0-9]*`.
Returns the digits and the remaining input. -/
def parseIntDigits : List Char → Option (List Char × List Char)
  | '0' :: rest => some (['0'], rest)
  | c :: rest =>
    if c.isDigit then
      some (c :: rest.takeWhile Char.isDigit, rest.dropWhile Char.isDigit)
    else none
  | [] => none

/-- Parse `.\d+` if present. Returns the fraction digits (possibly none
present) and the rest. Fails on a dot not followed by a digit. -/
def parseFracDigits : List Char → Option (Option (List Char) × List Char)
  | '.' :: rest =>
    let ds := rest.takeWhile Char.isDigit
    if ds.isEmpty then none
    else some (some ds, rest.dropWhile Char.isDigit)
  | cs => some (none, cs)

/-- Parse `[eE][-+]?\d+` if present. Returns the signed exponent and the
rest. Fails on a bare `e`. -/
def parseExpPart : List Char → Option (Option ℤ × List Char)
  | c :: rest =>
    if c = 'e' || c = 'E' then
      let (sign, rest1) : ℤ × List Char :=
        match rest with
        | '-' :: r => (-1, r)
        | '+' :: r => (1, r)
        | r => (1, r)
      let ds := rest1.takeWhile Char.isDigit
      if ds.isEmpty then none
      else some (some (sign * (digitsToNat ds : ℤ)), rest1.dropWhile Char.isDigit)
    else some (none, c :: rest)
  | [] => some (none, [])

/-- Parse a JSON number (sign already not consumed). -/
def parseNumber (cs : List Char) : Option (ℚ × List Char) :=
  let (neg, cs1) : Bool × List Char :=
    match cs with
    | '-' :: r => (true, r)
    | r => (false, r)
  match parseIntDigits cs1 with
  | none => none
  | some (ids, cs2) =>
    match parseFracDigits cs2 with
    | none => none
    | some (frac, cs3) =>
      match parseExpPart cs3 with
      | none => none
      | some (exp, cs4) =>
        let base : ℚ :=
          match frac with
          | none => (digitsToNat ids : ℚ)
          | some fds =>
            (digitsToNat ids : ℚ) + (digitsToNat fds : ℚ) / ((10 : ℚ) ^ fds.length)
        let signed : ℚ := if neg then -base else base
        let scaled : ℚ :=
          match exp with
          | none => signed
          | some e => signed * (10 : ℚ) ^ e
        some (scaled, cs4)

/-- Parse the body of a JSON string after the opening quote; rejects
unescaped control characters, accepts the standard escapes. -/
def parseStrBody : List Char → Option (List Char × List Char)
  | [] => none
  | '"' :: rest => some ([], rest)
  | '\\' :: 'u' :: h1 :: h2 :: h3 :: h4 :: rest => do
    let v1 ← hexVal h1
    let v2 ← hexVal h2
    let v3 ← hexVal h3
    let v4 ← hexVal h4
    let (body, rest2) ← parseStrBody rest
    pure (Char.ofNat (((v1 * 16 + v2) * 16 + v3) * 16 + v4) :: body, rest2)
  | '\\' :: e :: rest =>
    let esc : Option Char :=
      if e = '"' then some '"'
      else if e = '\\' then some '\\'
      else if e = '/' then some '/'
      else if e = 'b' then some '\x08'
      else if e = 'f' then some '\x0c'
      else if e = 'n' then some '\n'
      else if e = 'r' then some '\r'
      else if e = 't' then some '\t'
      else none
    match esc with
    | none => none
    | some c => do
      let (body, rest2) ← parseStrBody rest
      pure (c :: body, rest2)
  | c :: rest =>
    if c.toNat < 0x20 then none
    else do
      let (body, rest2) ← parseStrBody rest
      pure (c :: body, rest2)

mutual

/-- Parse one JSON value (fuel-indexed recursion; the fuel used at top level
is large enough that it is never exhausted on any input). -/
def parseValue : Nat → List Char → Option (Json × List Char)
  | 0, _ => none
  | fuel + 1, cs =>
    match skipWs cs with
    | '\x7b' :: rest =>
      (match skipWs rest with
       | '\x7d' :: rest2 => some (.obj [], rest2)
       | _ => (parseMembers fuel rest).map fun p => (Json.obj p.1, p.2))
    | '[' :: rest =>
      (match skipWs rest with
       | ']' :: rest2 => some (.arr [], rest2)
       | _ => (parseElements fuel rest).map fun p => (Json.arr p.1, p.2))
    | '"' :: rest => (parseStrBody rest).map fun p => (Json.str (String.mk p.1), p.2)
    | 't' :: 'r' :: 'u' :: 'e' :: rest => some (.bool true, rest)
    | 'f' :: 'a' :: 'l' :: 's' :: 'e' :: rest => some (.bool false, rest)
    | 'n' :: 'u' :: 'l' :: 'l' :: rest => some (.null, rest)
    | cs1 => (parseNumber cs1).map fun p => (Json.num p.1, p.2)

/-- Parse the members of a non-empty JSON object, up to and including the
closing brace. -/
def parseMembers : Nat → List Char → Option (List (String × Json) × List Char)
  | 0, _ => none
  | fuel + 1, cs =>
    match skipWs cs with
    | '"' :: rest =>
      match parseStrBody rest with
      | none => none
      | some (key, rest2) =>
        match skipWs rest2 with
        | ':' :: rest3 =>
          (match parseValue fuel rest3 with
           | none => none
           | some (v, rest4) =>
             match skipWs rest4 with
             | ',' :: rest5 =>
               (parseMembers fuel rest5).map fun p =>
                 ((String.mk key, v) :: p.1, p.2)
             | '\x7d' :: rest5 => some ([(String.mk key, v)], rest5)
             | _ => none)
        | _ => none
    | _ => none

/-- Parse the elements of a non-empty JSON array, up to and including the
closing bracket. -/
def parseElements : Nat → List Char → Option (List Json × List Char)
  | 0, _ => none
  | fuel + 1, cs =>
    match parseValue fuel cs with
    | none => none
    | some (v, rest) =>
      match skipWs rest with
      | ',' :: rest2 => (parseElements fuel rest2).map fun p => (v :: p.1, p.2)
      | ']' :: rest2 => some ([v], rest2)
      | _ => none

end

end JsonParse

/-- Model of Python `json.loads`: parse one JSON value and require that only
whitespace remains; `none` models a raised `JSONDecodeError`. -/
def jsonLoads (s : String) : Option Json :=
  let cs := s.toList
  match JsonParse.parseValue (2 * cs.length + 4) cs with
  | some (v, rest) => if (JsonParse.skipWs rest).isEmpty then some v else none
  | none => none

/-! ## `AgentLLM._parse_json` (`agent/llm_client.py`)

The tolerant JSON extraction applied to raw LLM text: a direct
`json.loads`, then a cascade of three regex extractions, each followed by a
parse attempt, taking the first success.  The regexes of the source are
`r'```json\s*([\s\S]*?)\s*```'` and `r'```\s*([\s\S]*?)\s*```'` (whose lazy
group, with the greedy `\s*` on both sides, yields the text between the
first opening fence and the next closing fence, stripped of surrounding
whitespace) and the greedy `r'\x7b[\s\S]*\x7d'` (whose match runs from the
first opening brace to the last closing brace of the whole string). -/

/-- Extract the fenced block: text between the first occurrence of `opener`
and the next `` ``` `` after it, whitespace-stripped (regex group 1). -/
def fenceExtract (opener : List Char) (s : String) : Option String :=
  let cs := s.toList
  match findSub opener cs with
  | none => none
  | some i =>
    let after := cs.drop (i + opener.length)
    match findSub ['`', '`', '`'] after with
    | none => none
    | some j => some (String.mk (stripWs (after.take j)))

/-- Extract the greedy brace span: from the first `\x7b` to the last `\x7d`
of the string, inclusive (regex group 0); none when the last `\x7d` does not
come after the first `\x7b`. -/
def braceExtract (s : String) : Option String :=
  let cs := s.toList
  match cs.findIdx? (· = '\x7b'), cs.reverse.findIdx? (· = '\x7d') with
  | some i, some jr =>
    let j := cs.length - 1 - jr
    if i < j then some (String.mk ((cs.drop i).take (j - i + 1))) else none
  | _, _ => none

/-- The three regex patterns tried, in source order, after the direct
parse. -/
inductive ExtractPat where
  | fencedJson : ExtractPat
  | fenced : ExtractPat
  | brace : ExtractPat

/-- `re.search` + group selection for one pattern of the cascade. -/
def extractPat : ExtractPat → String → Option String
  | .fencedJson, s => fenceExtract "```json".toList s
  | .fenced, s => fenceExtract "```".toList s
  | .brace, s => braceExtract s

/-- The pattern loop of `_parse_json`: for each pattern in order, if the
regex matches, attempt `json.loads` on the extracted text; on parse failure
(or no regex match) continue with the next pattern; `none` after the last. -/
def tryPats : List ExtractPat → String → Option Json
  | [], _ => none
  | p :: rest, s =>
    match extractPat p s with
    | none => tryPats rest s
    | some jstr =>
      match jsonLoads jstr with
      | some v => some v
      | none => tryPats rest s

/-- `AgentLLM._parse_json`: empty input yields `none`; otherwise a direct
`json.loads`, then the three-pattern cascade; `none` when everything fails
(never an exception). -/
def parseJson (response : String) : Option Json :=
  if response = "" then none
  else
    match jsonLoads response with
    | some v => some v
    | none => tryPats [.fencedJson, .fenced, .brace] response

/-- `AgentLLM.generate_json`: generate text (modelled by the `response`
argument, the oracle for the LLM call) and parse it with `_parse_json`. -/
def generateJson (response : String) : Option Json :=
  parseJson response

/-- Modelled from the spec: the spec describes a fourth strategy,
"trailing-comma repair", missing from `src/agent/llm_client.py`.  The repair
deletes any comma that is followed (up to whitespace) by a closing brace or
bracket. -/
def repairTrailingCommas (s : String) : String :=
  String.mk (go s.toList)
where
  /-- Delete each comma whose next non-whitespace character closes an
  object or array. -/
  go : List Char → List Char
  | [] => []
  | ',' :: rest =>
    match rest.dropWhile isWsChar with
    | '\x7d' :: _ => go rest
    | ']' :: _ => go rest
    | _ => ',' :: go rest
  | c :: rest => c :: go rest

/-- Modelled from the spec: the four-strategy extraction chain the spec
claims for `_parse_json` — direct parse, fenced-code-block extraction,
brace-matching, then trailing-comma repair (the repaired text re-parsed
directly and through the extraction patterns), first success returned. -/
def parseJsonSpec (response : String) : Option Json :=
  if response = "" then none
  else
    match jsonLoads response with
    | some v => some v
    | none =>
      match tryPats [.fencedJson, .fenced, .brace] response with
      | some v => some v
      | none =>
        let repaired := repairTrailingCommas response
        match jsonLoads repaired with
        | some v => some v
        | none => tryPats [.fencedJson, .fenced, .brace] repaired

/-! ## Data model (`agent/planner.py`, `tools/base_tool.py`, `agent/executor.py`)

A note on dictionary fidelity: a Python `dict` key that is present with value
`None` and an absent key both read back as `None` through `.get`; the model
collapses the two into "absent" (`Option.none` / a missing `Json.obj`
member).  Python set iteration order (in `list(set(...))`) is unspecified;
the model fixes the deterministic first-occurrence order, and every theorem
about such lists only uses membership. -/

/-- One entry of `QueryPlan.tools_to_use`: a dict
`{"tool": ..., "action": ..., "params": ...}`. -/
structure ToolCall where
  tool : String
  action : Option String := none
  params : Json := Json.obj []

/-- `planner.QueryPlan`. -/
structure QueryPlan where
  original_query : String
  intent : String
  tools_to_use : List ToolCall
  is_comparison : Bool := false
  companies_mentioned : List String := []
  attributes_requested : List String := []
  needs_enrichment : Bool := true
  fallback_to_hybrid : Bool := false
  reasoning : String := ""

/-- `base_tool.ToolResult`. -/
structure ToolResult where
  success : Bool
  data : Option Json
  message : String
  tool_name : String
  query : String

/-- `executor.ExecutionResult`. -/
structure ExecutionResult where
  success : Bool
  tool_results : List ToolResult
  enriched_results : Option Json := none
  errors : List String := []

/-- `critic.CriticFeedback`; `confidence_score` is a float in the source,
modelled by `ℚ`. -/
structure CriticFeedback where
  is_complete : Bool
  is_relevant : Bool
  missing_info : List String
  suggestions : List String
  confidence_score : ℚ
  needs_retry : Bool
  retry_suggestions : List Json
  reasoning : String := ""

/-- `orchestrator.AgentResponse`. -/
structure AgentResponse where
  answer : String
  plan : QueryPlan
  execution : ExecutionResult
  feedback : CriticFeedback
  retries : Nat := 0

/-- A Python exception class raised by the planner's LLM path on ill-typed
JSON: `AttributeError` (calling `.get` on a non-dict) or `TypeError`
(concatenating a non-list, or hashing an unhashable element in `set`). -/
inductive PyErr where
  | attributeError : PyErr
  | typeError : PyErr

/-- Is the value hashable in Python (usable as a `set` element)?  JSON
lists and dicts are not. -/
def Json.isHashable : Json → Bool
  | .arr _ => false
  | .obj _ => false
  | _ => true

/-! ## Planner (`agent/planner.py`) -/

namespace Planner

/-- Digit-run string to its numeric value (Python `float` of a `\d+` run). -/
def natOfDigits (s : String) : ℕ :=
  JsonParse.digitsToNat s.toList

/-- `Planner._extract_companies_fuzzy`: case-insensitive substring matches
against the known-companies set, plus the fixed fuzzy-alias table. -/
def extractCompaniesFuzzy (known : List String) (query : String) : List String :=
  let ql := lowerStr query
  let knownL := (known.map lowerStr).eraseDups
  let companies := knownL.filter fun c => containsSub ql c
  let fuzzy : List (String × String) :=
    [("intell", "intel"), ("dell", "dell"), ("nvidia", "nvidia"),
     ("bosch", "bosch"), ("amazon", "amazon")]
  let companies := fuzzy.foldl
    (fun acc mc =>
      if containsSub ql mc.1 && knownL.contains mc.2 && !acc.contains mc.2 then
        acc ++ [mc.2]
      else acc)
    companies
  companies.eraseDups

/-- The action/params selection of `Planner._plan_aggregation`: a location
hit selects `filter_by_location`; a stipend threshold then overwrites the
action (keeping any location parameter in `params`, as the source does). -/
def aggregationAction (query : String) : String × List (String × Json) :=
  let locations : List (String × String) :=
    [("bangalore", "Bangalore"), ("hyderabad", "Hyderabad"),
     ("chennai", "Chennai"), ("mumbai", "Mumbai"), ("delhi", "Delhi"),
     ("pune", "Pune"), ("noida", "Noida")]
  let ap : String × List (String × Json) :=
    match locations.find? (fun lv => containsSub query lv.1) with
    | some lv => ("filter_by_location", [("location", Json.str lv.2)])
    | none => ("get_all_companies", [])
  if containsSub query "stipend" then
    match digitRuns query.toList with
    | n0 :: _ =>
      if ["more", "greater", "above"].any (containsSub query) then
        ("filter_by_stipend", ap.2 ++ [("min_value", Json.num (natOfDigits n0 : ℚ))])
      else ap
    | [] => ap
  else ap

/-- `Planner._plan_aggregation`; its `query` argument is the already
lowercased query. -/
def planAggregation (query : String) (companies : List String) : QueryPlan :=
  let ap := aggregationAction query
  { original_query := query
    intent := "aggregation"
    tools_to_use := [{ tool := "facts_lookup", action := some ap.1, params := Json.obj ap.2 }]
    companies_mentioned := companies
    needs_enrichment := false
    reasoning := "Aggregation query" }

/-- `Planner._plan_comparison`. -/
def planComparison (query : String) (companies : List String) : QueryPlan :=
  { original_query := query
    intent := "comparison"
    tools_to_use := [{ tool := "compare_companies"
                       params := Json.obj [("companies", Json.arr (companies.map Json.str)),
                                           ("comparison_type", Json.str "detailed")] }]
    is_comparison := true
    companies_mentioned := companies
    needs_enrichment := true
    reasoning := "Comparison query" }

/-- `Planner._plan_hybrid`. -/
def planHybrid (query : String) (companies : List String) : QueryPlan :=
  { original_query := query
    intent := "hybrid"
    tools_to_use := [{ tool := "hybrid_search"
                       params := Json.obj [("query", Json.str query),
                                           ("companies", Json.arr (companies.map Json.str)),
                                           ("top_k", Json.num 5)] }]
    companies_mentioned := companies
    needs_enrichment := true
    reasoning := "Hybrid query for comprehensive results" }

/-- `Planner._analyze_rule_based`: keyword classification into aggregation /
comparison / hybrid. -/
def analyzeRuleBased (query : String) (companies : List String) : QueryPlan :=
  let ql := lowerStr query
  let isAggregation := ["how many", "list all", "which companies", "count"].any (containsSub ql)
  let isFilter := ["companies in", "companies with", "stipend more", "cgpa less"].any (containsSub ql)
  let isComparison := companies.length ≥ 2 || ["compare", "vs", "versus"].any (containsSub ql)
  if isAggregation || isFilter then planAggregation ql companies
  else if isComparison then planComparison query companies
  else if !companies.isEmpty then planHybrid query companies
  else planHybrid query []

/-- `Planner._analyze_with_llm`: `llmResult` is the parsed `generate_json`
output (`none` models an unparsable LLM response).  The source guards the
LLM branch with `if result:` — a falsy parsed value (`None`, `{}`, `[]`,
`""`, `0`, `false`) falls back to the rule-based path.  A truthy parsed
value that is not a dict raises `AttributeError` at `result.get("tool",
{})`; a `tool` field that is not a dict raises `AttributeError` at
`tool_config.get("name", ...)`; a truthy non-list `companies` field raises
`TypeError` at the list concatenation, and a `companies` list holding an
unhashable element raises `TypeError` inside `set(...)`; all of these
propagate out of `analyze` (nothing in the planner catches them).
Ill-typed values that do not raise (a non-string `intent`/`name`, numeric
entries in `companies`) are stored raw by Python; the model keeps its typed
fields and reads them through the defaulting/filtering accessors. -/
def analyzeWithLLM (query : String) (detectedCompanies : List String)
    (llmResult : Option Json) : Except PyErr QueryPlan :=
  match llmResult with
  | none => .ok (analyzeRuleBased query detectedCompanies)
  | some result =>
    if result.truthy then
      match result with
      | .obj _ =>
        let toolConfig := result.getD "tool" (Json.obj [])
        match toolConfig with
        | .obj _ =>
          let toolName := toolConfig.getStrD "name" "hybrid_search"
          let tools : List ToolCall :=
            [{ tool := toolName
               action := toolConfig.getStr "action"
               params := toolConfig.getD "params" (Json.obj []) }]
          let llmCompanies : Except PyErr (List String) :=
            match result.get "companies" with
            | none => .ok []
            | some v =>
              if v.truthy then
                match v with
                | .arr xs =>
                  if xs.any (fun x => !x.isHashable) then .error .typeError
                  else .ok (xs.filterMap fun x =>
                    match x with | .str s => some s | _ => none)
                | _ => .error .typeError
              else .ok []
          match llmCompanies with
          | .error e => .error e
          | .ok cs =>
            .ok { original_query := query
                  intent := result.getStrD "intent" "general"
                  tools_to_use := tools
                  is_comparison := (result.getD "is_comparison" (Json.bool false)).truthy
                  companies_mentioned := (cs ++ detectedCompanies).eraseDups
                  attributes_requested := result.getStrArrD "attributes"
                  needs_enrichment := !(result.getD "is_aggregation" (Json.bool false)).truthy
                  fallback_to_hybrid := false
                  reasoning := result.getStrD "reasoning" "LLM analysis" }
        | _ => .error .attributeError
      | _ => .error .attributeError
    else .ok (analyzeRuleBased query detectedCompanies)

/-- `Planner.analyze`: rule-based company extraction always runs first; the
LLM path is taken when enabled, with `llmResult` the parsed LLM response;
an exception of the LLM path propagates to the caller. -/
def analyze (known : List String) (useLlm : Bool) (llmResult : Option Json)
    (query : String) : Except PyErr QueryPlan :=
  let companies := extractCompaniesFuzzy known query
  if useLlm then analyzeWithLLM query companies llmResult
  else .ok (analyzeRuleBased query companies)

end Planner

/-! ## Facts store (`rag/facts_index.py`) and facts tool (`tools/facts_tool.py`)

A loaded `FactsIndex` is modelled by the list of its fact records (each a
JSON object); the pandas DataFrame columns the filters use
(`stipend_amount`, `cgpa_*`, `locations`, `branches`) are recomputed from
the records exactly as `_build_dataframe` does, with pandas `NaN` modelled
by `Option.none` (a NaN row fails every `>=`/`<=` comparison and is
excluded by `na=False` containment).  Python `str()` of a float value is
rendered without a trailing `.0` for whole numbers in container positions
(no theorem depends on those rendered strings). -/

/-- Python `repr()` of a JSON-shaped value (strings get quotes; containers
render their elements by `repr`). -/
def pyRepr (v : Json) : String :=
  match v with
  | .null => "None"
  | .bool true => "True"
  | .bool false => "False"
  | .num q => if q.den = 1 then toString q.num else toString q
  | .str s => "'" ++ s ++ "'"
  | .arr xs =>
    "[" ++ String.intercalate ", " (xs.attach.map fun e => pyRepr e.1) ++ "]"
  | .obj kvs =>
    "\x7b" ++
      String.intercalate ", "
        (kvs.attach.map fun e => "'" ++ e.1.1 ++ "': " ++ pyRepr e.1.2) ++
    "\x7d"
termination_by sizeOf v
decreasing_by
  · have := List.sizeOf_lt_of_mem e.2
    simp only [Json.arr.sizeOf_spec]
    omega
  · obtain ⟨⟨a, b⟩, hmem⟩ := e
    have h1 := List.sizeOf_lt_of_mem hmem
    simp only [Json.obj.sizeOf_spec]
    simp at h1 ⊢
    omega

/-- Python `str()` as used on JSON-shaped values in display strings (the
same as `repr` except that a top-level string is rendered bare). -/
def pyStr (v : Json) : String :=
  match v with
  | .str s => s
  | v => pyRepr v

/-- Python `str()` of a float (the only floats rendered in messages are
whole-numbered thresholds). -/
def floatStr (q : ℚ) : String :=
  if q.den = 1 then toString q.num ++ ".0" else toString q

/-- `d.get(k)` with Python's `None` for an absent key. -/
def jget (f : Json) (k : String) : Json :=
  f.getD k Json.null

/-- `f.get("role_title") or f.get("role_name")` (Python `or` on
truthiness). -/
def roleOf (f : Json) : Json :=
  let rt := jget f "role_title"
  if rt.truthy then rt else jget f "role_name"

namespace FactsIndex

/-- `FactsIndex._parse_number`: `None`/`''` give no value; numbers (and
booleans, integers in Python) convert directly; strings have commas removed
and the first `[\d.]+` run converted by `float`, failing on a malformed
run. -/
def parseNumberField (v : Json) : Option ℚ :=
  match v with
  | .null => none
  | .str "" => none
  | .num q => some q
  | .bool b => some (if b then 1 else 0)
  | .str s => firstRunValue (s.toList.filter (· ≠ ','))
  | v => firstRunValue ((pyStr v).toList.filter (· ≠ ','))
where
  /-- `float` of the first maximal `[\d.]+` run, `none` when there is no run
  or `float` would reject it (more than one dot, or a lone dot). -/
  firstRunValue (cs : List Char) : Option ℚ :=
    let isRunChar : Char → Bool := fun c => c.isDigit || c = '.'
    match cs.dropWhile (fun c => !isRunChar c) with
    | [] => none
    | rest =>
      let run := rest.takeWhile isRunChar
      let dots := run.filter (· = '.')
      if dots.length = 0 then some (JsonParse.digitsToNat run : ℚ)
      else if dots.length = 1 then
        let ip := run.takeWhile Char.isDigit
        let fp := (run.dropWhile Char.isDigit).drop 1
        if ip.isEmpty && fp.isEmpty then none
        else some ((JsonParse.digitsToNat ip : ℚ) +
                   (JsonParse.digitsToNat fp : ℚ) / (10 : ℚ) ^ fp.length)
      else none

/-- DataFrame column `stipend_amount` of one fact. -/
def stipendAmount (f : Json) : Option ℚ :=
  match f.get "stipend_salary" with
  | some (Json.obj kvs) => parseNumberField ((Json.obj kvs).getD "amount" (Json.str ""))
  | some v => parseNumberField v
  | none => none

/-- DataFrame column `cgpa_<degree>` of one fact (`NaN` when `eligibility`
is not a dict). -/
def cgpaVal (f : Json) (degree : String) : Option ℚ :=
  match f.get "eligibility" with
  | some (Json.obj kvs) => parseNumberField ((Json.obj kvs).getD ("cgpa_" ++ degree) (Json.str ""))
  | _ => none

/-- DataFrame column `locations` of one fact. -/
def locationsStr (f : Json) : String :=
  match f.get "location" with
  | some (Json.arr xs) =>
    String.intercalate ", " (xs.filterMap fun v => match v with | .str s => some s | _ => none)
  | some v => pyStr v
  | none => ""

/-- DataFrame column `branches` of one fact (`none` models `NaN` when
`eligibility` is not a dict, excluded by `na=False`). -/
def branchesStr (f : Json) : Option String :=
  match f.get "eligibility" with
  | some (Json.obj kvs) =>
    some (String.intercalate ", "
      (((Json.obj kvs).getArrD "branches").filterMap fun v =>
        match v with | .str s => some s | _ => none))
  | _ => none

/-- The distinct lowercased company names of the index, in first-appearance
order (the insertion order of `_company_index`). -/
def companyNames (facts : List Json) : List String :=
  ((facts.map fun f => lowerStr (f.getStrD "company_name" "")).filter (· ≠ "")).eraseDups

/-- `FactsIndex.get_by_company`: exact lowercase match against the company
index first, else every partially matching company, keeping fact order. -/
def getByCompany (facts : List Json) (company : String) : List Json :=
  let cl := lowerStr company
  let names := companyNames facts
  if names.contains cl then
    facts.filter fun f => lowerStr (f.getStrD "company_name" "") = cl
  else
    (names.filter fun nm => containsSub nm cl || containsSub cl nm).flatMap fun nm =>
      facts.filter fun f => lowerStr (f.getStrD "company_name" "") = nm

/-- `FactsIndex.get_all_companies` (`list(set(...))`, modelled with
first-occurrence order). -/
def getAllCompanies (facts : List Json) : List String :=
  (facts.map fun f => f.getStrD "company_name" "").eraseDups

/-- Re-select the full fact records whose `primary_key` survived a DataFrame
filter, as the `filter_by_*` methods do. -/
def reselectByKeys (facts kept : List Json) : List Json :=
  let pks := kept.map fun f => f.getStrD "primary_key" ""
  facts.filter fun f => pks.contains (f.getStrD "primary_key" "")

/-- `FactsIndex.filter_by_stipend`. -/
def filterByStipend (facts : List Json) (minA maxA : Option ℚ) : List Json :=
  let kept := facts.filter fun f =>
    (match minA with
     | none => true
     | some m => match stipendAmount f with
                 | some a => decide (m ≤ a)
                 | none => false) &&
    (match maxA with
     | none => true
     | some m => match stipendAmount f with
                 | some a => decide (a ≤ m)
                 | none => false)
  reselectByKeys facts kept

/-- `FactsIndex.filter_by_cgpa`: rows with no requirement (`NaN`) are
included. -/
def filterByCgpa (facts : List Json) (maxCgpa : ℚ) (degree : String) : List Json :=
  let kept := facts.filter fun f =>
    match cgpaVal f degree with
    | none => true
    | some v => decide (v ≤ maxCgpa)
  reselectByKeys facts kept

/-- `FactsIndex.filter_by_location`. -/
def filterByLocation (facts : List Json) (location : String) : List Json :=
  let ll := lowerStr location
  let kept := facts.filter fun f => containsSub (lowerStr (locationsStr f)) ll
  reselectByKeys facts kept

/-- `FactsIndex.filter_by_branch`. -/
def filterByBranch (facts : List Json) (branch : String) : List Json :=
  let bl := lowerStr branch
  let kept := facts.filter fun f =>
    match branchesStr f with
    | none => false
    | some bs => containsSub (lowerStr bs) bl
  reselectByKeys facts kept

/-- `FactsIndex.search_attribute` (no company filter is `none`). -/
def searchAttribute (facts : List Json) (attr : String)
    (companies : Option (List String)) : List Json :=
  let base :=
    match companies with
    | some cs =>
      if cs.isEmpty then facts
      else
        let csl := cs.map lowerStr
        facts.filter fun f => csl.contains (lowerStr (f.getStrD "company_name" ""))
    | none => facts
  let getter : Json → Json := fun f =>
    let al := lowerStr attr
    if al = "stipend" then f.getD "stipend_salary" (Json.obj [])
    else if al = "location" then f.getD "location" (Json.arr [])
    else if al = "duration" then f.getD "duration" (Json.str "")
    else if al = "cgpa" then (f.getD "eligibility" (Json.obj [])).getD "cgpa_pg" (Json.str "")
    else if al = "branches" then (f.getD "eligibility" (Json.obj [])).getD "branches" (Json.arr [])
    else if al = "selection_process" then f.getD "selection_process" (Json.arr [])
    else if al = "work_mode" then f.getD "work_mode" (Json.str "")
    else if al = "apply_before" then f.getD "apply_before" (Json.str "")
    else f.getD attr (Json.str "")
  base.map fun f =>
    Json.obj [("company", jget f "company_name"),
              ("role", jget f "role_name"),
              ("role_title", jget f "role_title"),
              ("primary_key", jget f "primary_key"),
              (attr, getter f)]

/-- `FactsIndex.get_all_stipends`. -/
def getAllStipends (facts : List Json) : List Json :=
  facts.map fun f =>
    let stipend := f.getD "stipend_salary" (Json.obj [])
    let amount : Json :=
      match stipend with
      | .obj kvs => (Json.obj kvs).getD "amount" (Json.str "")
      | v => Json.str (pyStr v)
    Json.obj [("company", jget f "company_name"),
              ("role", jget f "role_name"),
              ("role_title", jget f "role_title"),
              ("stipend", amount),
              ("primary_key", jget f "primary_key")]

end FactsIndex

namespace FactsTool

/-- A `ToolResult` of the facts tool. -/
def mk (success : Bool) (data : Option Json) (message q : String) : ToolResult :=
  { success := success, data := data, message := message,
    tool_name := "facts_lookup", query := q }

/-- `FactsLookupTool._get_all_companies`. -/
def getAllCompaniesR (facts : List Json) : ToolResult :=
  let companies := FactsIndex.getAllCompanies facts
  mk true
    (some (Json.obj [("companies", Json.arr (companies.map Json.str)),
                     ("count", Json.num companies.length)]))
    ("Found " ++ toString companies.length ++ " companies")
    "get_all_companies"

/-- `FactsLookupTool._get_company_details`. -/
def getCompanyDetailsR (facts : List Json) (company : Option String) : ToolResult :=
  match company with
  | none => mk false none "Company name required" "get_company_details"
  | some c =>
    if c = "" then mk false none "Company name required" "get_company_details"
    else
      let found := FactsIndex.getByCompany facts c
      if found.isEmpty then
        mk false none ("No data found for company: " ++ c) ("get_company_details:" ++ c)
      else
        let formatted := found.map fun f =>
          Json.obj [("company", jget f "company_name"),
                    ("role", roleOf f),
                    ("stipend", jget f "stipend_salary"),
                    ("duration", jget f "duration"),
                    ("location", jget f "location"),
                    ("work_mode", jget f "work_mode"),
                    ("eligibility", jget f "eligibility"),
                    ("selection_process", jget f "selection_process"),
                    ("apply_before", jget f "apply_before")]
        mk true
          (some (Json.obj [("company", Json.str c),
                           ("roles", Json.arr formatted),
                           ("count", Json.num formatted.length)]))
          ("Found " ++ toString formatted.length ++ " roles for " ++ c)
          ("get_company_details:" ++ c)

/-- `FactsLookupTool._get_all_stipends`. -/
def getAllStipendsR (facts : List Json) : ToolResult :=
  let stipends := FactsIndex.getAllStipends facts
  let formatted := stipends.map fun s =>
    let stipendVal := s.getD "stipend" (Json.str "N/A")
    let stipendStr : String :=
      match stipendVal with
      | .obj kvs =>
        pyStr ((Json.obj kvs).getD "amount" (Json.str "N/A")) ++ " " ++
        pyStr ((Json.obj kvs).getD "currency" (Json.str "INR")) ++ " " ++
        pyStr ((Json.obj kvs).getD "period" (Json.str "per month"))
      | v => if v.truthy then pyStr v else "N/A"
    Json.obj [("company", jget s "company"),
              ("role", roleOf s),
              ("stipend", Json.str stipendStr)]
  mk true
    (some (Json.obj [("stipends", Json.arr formatted),
                     ("count", Json.num formatted.length)]))
    ("Retrieved stipend info for " ++ toString formatted.length ++ " roles")
    "get_all_stipends"

/-- `FactsLookupTool._filter_by_stipend`. -/
def filterByStipendR (facts : List Json) (minVal maxVal : Option ℚ) : ToolResult :=
  let found := FactsIndex.filterByStipend facts minVal maxVal
  let formatted := found.map fun f =>
    let amount : Json :=
      match f.getD "stipend_salary" (Json.obj []) with
      | .obj kvs => (Json.obj kvs).getD "amount" (Json.str "N/A")
      | v => v
    Json.obj [("company", jget f "company_name"),
              ("role", roleOf f),
              ("stipend", amount),
              ("location", jget f "location")]
  let criteria :=
    (match minVal with
     | some m => if m ≠ 0 then ["min=" ++ floatStr m] else []
     | none => []) ++
    (match maxVal with
     | some m => if m ≠ 0 then ["max=" ++ floatStr m] else []
     | none => [])
  mk true
    (some (Json.obj [("results", Json.arr formatted),
                     ("count", Json.num formatted.length)]))
    ("Found " ++ toString formatted.length ++ " roles with stipend " ++
      String.intercalate ", " criteria)
    ("filter_by_stipend:" ++ String.intercalate "," criteria)

/-- `FactsLookupTool._filter_by_cgpa` (called with `max_value`). -/
def filterByCgpaR (facts : List Json) (maxCgpa : Option ℚ) : ToolResult :=
  match maxCgpa with
  | none => mk false none "max_value (CGPA) required" "filter_by_cgpa"
  | some m =>
    let found := FactsIndex.filterByCgpa facts m "pg"
    let formatted := found.map fun f =>
      let cgpa : Json :=
        match f.get "eligibility" with
        | some (Json.obj kvs) =>
          let pg := (Json.obj kvs).getD "cgpa_pg" Json.null
          if pg.truthy then pg else (Json.obj kvs).getD "cgpa_ug" Json.null
        | _ => Json.null
      Json.obj [("company", jget f "company_name"),
                ("role", roleOf f),
                ("cgpa_required", cgpa),
                ("stipend", jget f "stipend_salary")]
    mk true
      (some (Json.obj [("results", Json.arr formatted),
                       ("count", Json.num formatted.length)]))
      ("Found " ++ toString formatted.length ++ " roles with CGPA requirement <= " ++ floatStr m)
      ("filter_by_cgpa:<=" ++ floatStr m)

/-- `FactsLookupTool._filter_by_location`. -/
def filterByLocationR (facts : List Json) (location : Option String) : ToolResult :=
  match location with
  | none => mk false none "Location required" "filter_by_location"
  | some loc =>
    if loc = "" then mk false none "Location required" "filter_by_location"
    else
      let found := FactsIndex.filterByLocation facts loc
      let formatted := found.map fun f =>
        Json.obj [("company", jget f "company_name"),
                  ("role", roleOf f),
                  ("location", jget f "location"),
                  ("stipend", jget f "stipend_salary")]
      mk true
        (some (Json.obj [("results", Json.arr formatted),
                         ("count", Json.num formatted.length),
                         ("location", Json.str loc)]))
        ("Found " ++ toString formatted.length ++ " roles in " ++ loc)
        ("filter_by_location:" ++ loc)

/-- `FactsLookupTool._filter_by_branch`. -/
def filterByBranchR (facts : List Json) (branch : Option String) : ToolResult :=
  match branch with
  | none => mk false none "Branch required" "filter_by_branch"
  | some b =>
    if b = "" then mk false none "Branch required" "filter_by_branch"
    else
      let found := FactsIndex.filterByBranch facts b
      let formatted := found.map fun f =>
        let branches : Json :=
          match f.get "eligibility" with
          | some (Json.obj kvs) => (Json.obj kvs).getD "branches" (Json.arr [])
          | _ => Json.arr []
        Json.obj [("company", jget f "company_name"),
                  ("role", roleOf f),
                  ("eligible_branches", branches),
                  ("stipend", jget f "stipend_salary")]
      mk true
        (some (Json.obj [("results", Json.arr formatted),
                         ("count", Json.num formatted.length),
                         ("branch", Json.str b)]))
        ("Found " ++ toString formatted.length ++ " roles for " ++ b ++ " students")
        ("filter_by_branch:" ++ b)

/-- `FactsLookupTool._get_attribute`. -/
def getAttributeR (facts : List Json) (attr company : Option String) : ToolResult :=
  match attr with
  | none => mk false none "Attribute name required" "get_attribute"
  | some a =>
    if a = "" then mk false none "Attribute name required" "get_attribute"
    else
      let companies : Option (List String) :=
        match company with
        | some c => if c = "" then none else some [c]
        | none => none
      let results := FactsIndex.searchAttribute facts a companies
      mk true
        (some (Json.obj [("attribute", Json.str a),
                         ("results", Json.arr results),
                         ("count", Json.num results.length)]))
        ("Retrieved '" ++ a ++ "' for " ++ toString results.length ++ " roles")
        ("get_attribute:" ++ a)

/-- `FactsLookupTool._get_eligibility`. -/
def getEligibilityR (facts : List Json) (company : Option String) : ToolResult :=
  let isCompany : Bool := match company with | some c => c != "" | none => false
  let base :=
    match company with
    | some c => if c ≠ "" then FactsIndex.getByCompany facts c else facts
    | none => facts
  let formatted := base.map fun f =>
    Json.obj [("company", jget f "company_name"),
              ("role", roleOf f),
              ("eligibility", f.getD "eligibility" (Json.obj []))]
  mk true
    (some (Json.obj [("results", Json.arr formatted),
                     ("count", Json.num formatted.length)]))
    ("Retrieved eligibility for " ++ toString formatted.length ++ " roles")
    ("get_eligibility:" ++ (if isCompany then (company.getD "") else "all"))

/-- `FactsLookupTool._get_selection_process`. -/
def getSelectionProcessR (facts : List Json) (company : Option String) : ToolResult :=
  let isCompany : Bool := match company with | some c => c != "" | none => false
  let base :=
    match company with
    | some c => if c ≠ "" then FactsIndex.getByCompany facts c else facts
    | none => facts
  let formatted := base.map fun f =>
    let process := f.getD "selection_process" (Json.arr [])
    let rounds : ℕ := match process with | .arr xs => xs.length | _ => 0
    Json.obj [("company", jget f "company_name"),
              ("role", roleOf f),
              ("selection_process", process),
              ("num_rounds", Json.num rounds)]
  mk true
    (some (Json.obj [("results", Json.arr formatted),
                     ("count", Json.num formatted.length)]))
    ("Retrieved selection process for " ++ toString formatted.length ++ " roles")
    ("get_selection_process:" ++ (if isCompany then (company.getD "") else "all"))

/-- `FactsLookupTool.execute` over a loaded index: keyword arguments are
read out of the call's `params` dict, and the action string is routed to
the matching method.  (The failed-load branch and the `try/except` wrapper
cannot fire in the model: the index is given as loaded data and the
methods are total.) -/
def execute (facts : List Json) (action : String) (params : Json) : ToolResult :=
  let company := params.getStr "company"
  let attr := params.getStr "attribute"
  let minValue : Option ℚ :=
    match params.get "min_value" with | some (.num q) => some q | _ => none
  let maxValue : Option ℚ :=
    match params.get "max_value" with | some (.num q) => some q | _ => none
  let location := params.getStr "location"
  let branch := params.getStr "branch"
  if action = "get_all_companies" then getAllCompaniesR facts
  else if action = "get_company_details" then getCompanyDetailsR facts company
  else if action = "get_all_stipends" then getAllStipendsR facts
  else if action = "filter_by_stipend" then filterByStipendR facts minValue maxValue
  else if action = "filter_by_cgpa" then filterByCgpaR facts maxValue
  else if action = "filter_by_location" then filterByLocationR facts location
  else if action = "filter_by_branch" then filterByBranchR facts branch
  else if action = "get_attribute" then getAttributeR facts attr company
  else if action = "get_eligibility" then getEligibilityR facts company
  else if action = "get_selection_process" then getSelectionProcessR facts company
  else mk false none ("Unknown action: " ++ action) action

end FactsTool

/-! ## Executor (`agent/executor.py`)

The semantic store and the compare tool are external collaborators (a FAISS
vector index and its wrapper): they are modelled as opaque functions in an
environment, quantified over in every theorem.  The facts tool runs the
concrete model above over the environment's fact records. -/

/-- The stores an `Executor` talks to: `semanticSearch` models
`SemanticRAGTool.execute(query, search_type, company, top_k)`,
`compareExecute` models `CompareCompaniesTool.execute(**params)`, and
`facts` is the loaded facts index. -/
structure Env where
  semanticSearch : String → String → Option String → ℚ → ToolResult
  compareExecute : Json → ToolResult
  facts : List Json

/-- `r.success and r.data` (data truthiness included, as in Python). -/
def ToolResult.hasData (r : ToolResult) : Bool :=
  r.success && (match r.data with | some d => d.truthy | none => false)

namespace Executor

/-- `Executor.SEMANTIC_TOP_K`. -/
def SEMANTIC_TOP_K : ℚ := 3

/-- `Executor._execute_facts`: a multi-company `get_company_details` call
iterates the mentioned companies and concatenates their role records; any
other case forwards to the facts tool. -/
def executeFacts (env : Env) (tc : ToolCall) (plan : QueryPlan) : ToolResult :=
  let action := tc.action.getD "get_all_companies"
  let multi :=
    if !plan.companies_mentioned.isEmpty && action = "get_company_details" then
      let allResults := plan.companies_mentioned.flatMap fun company =>
        let r := FactsTool.execute env.facts "get_company_details"
          (Json.obj [("company", Json.str company)])
        if r.hasData then
          match r.data with
          | some d => d.getArrD "roles"
          | none => []
        else []
      if !allResults.isEmpty then
        some { success := true
               data := some (Json.obj [("roles", Json.arr allResults),
                                       ("count", Json.num allResults.length)])
               message := "Found " ++ toString allResults.length ++ " roles"
               tool_name := "facts_lookup"
               query := pyStr (Json.arr (plan.companies_mentioned.map Json.str)) }
      else none
    else none
  match multi with
  | some r => r
  | none => FactsTool.execute env.facts action tc.params

/-- `Executor._execute_semantic`: `semantic_tool.execute(**params)`. -/
def executeSemantic (env : Env) (params : Json) : ToolResult :=
  env.semanticSearch (params.getStrD "query" "") (params.getStrD "search_type" "general")
    (params.getStr "company") (params.getNumD "top_k" 5)

/-- `Executor._execute_compare`: `compare_tool.execute(**params)`. -/
def executeCompare (env : Env) (params : Json) : ToolResult :=
  env.compareExecute params

/-- Add an element to an insertion-ordered model of a Python set. -/
def addUniq (acc : List String) (s : String) : List String :=
  if acc.contains s then acc else acc ++ [s]

/-- `Executor._execute_hybrid`: semantic discovery with the fixed
`SEMANTIC_TOP_K`, union with the requested companies, then a facts fetch
per company found. -/
def executeHybrid (env : Env) (params : Json) (plan : QueryPlan) : ToolResult :=
  let query := match params.getStr "query" with
               | some q => q
               | none => plan.original_query
  let companies := match params.get "companies" with
                   | some (.arr xs) =>
                     xs.filterMap fun (v : Json) =>
                       match v with | .str s => some s | _ => none
                   | _ => plan.companies_mentioned
  let semanticResult := env.semanticSearch query "general" none SEMANTIC_TOP_K
  let companiesFound := if companies.isEmpty then [] else companies.foldl addUniq []
  let companiesFound :=
    if semanticResult.hasData then
      (match semanticResult.data with
       | some d => d.getArrD "results"
       | none => []).foldl
        (fun (acc : List String) (r : Json) =>
          match r.getStr "company" with
          | some c => if c ≠ "" then addUniq acc c else acc
          | none => acc)
        companiesFound
    else companiesFound
  let factsData := companiesFound.filterMap fun company =>
    let fr := FactsTool.execute env.facts "get_company_details"
      (Json.obj [("company", Json.str company)])
    if fr.hasData then
      match fr.data with
      | some d => some (company, d)
      | none => none
    else none
  { success := true
    data := some (Json.obj
      [("semantic_results",
        if semanticResult.success then
          (match semanticResult.data with | some d => d | none => Json.null)
        else Json.obj []),
       ("facts_data", Json.obj factsData),
       ("companies", Json.arr (companiesFound.map Json.str))])
    message := "Found " ++ toString companiesFound.length ++ " companies"
    tool_name := "hybrid_search"
    query := query }

/-- Python `str.title()`. -/
def titleStr (s : String) : String :=
  String.mk (go s.toList false)
where
  /-- Uppercase a letter after a non-letter, lowercase the rest. -/
  go : List Char → Bool → List Char
  | [], _ => []
  | c :: rest, prevAlpha =>
    (if c.isAlpha then (if prevAlpha then c.toLower else c.toUpper) else c) ::
      go rest c.isAlpha

/-- The four fixed enrichment categories, with their semantic queries, in
source dict order. -/
def enrichCategories (company : String) : List (String × String) :=
  [("skills_required", company ++ " skills programming technical"),
   ("interview_process", company ++ " interview selection rounds test"),
   ("roles_responsibilities", company ++ " job responsibilities duties"),
   ("about_company", company ++ " company culture")]

/-- `r.get("content", r.get("text", ""))` rendered for joining. -/
def chunkText (r : Json) : String :=
  pyStr (r.getD "content" (r.getD "text" (Json.str "")))

/-- `Executor._enrich_comprehensive`: collect every company surfaced in the
tool outputs (plus the mentioned ones), lowercase; per company fetch the
full facts and run the four categorized semantic sub-queries (top 3 each),
joining matched chunk texts with the separator. -/
def enrichComprehensive (env : Env) (toolResults : List ToolResult)
    (plan : QueryPlan) : Json :=
  let s0 := (plan.companies_mentioned.map lowerStr).foldl addUniq []
  let collected := toolResults.foldl
    (fun (acc : List String) (r : ToolResult) =>
      if !(r.success && (match r.data with | some d => d.truthy | none => false)) then acc
      else
        let d := match r.data with | some d => d | none => Json.null
        let resultsList :=
          match d.get "results" with
          | some (.arr xs) => xs
          | some _ => []
          | none => (d.getD "semantic_results" (Json.obj [])).getArrD "results"
        let acc := resultsList.foldl
          (fun acc r2 =>
            if r2.getTruthy "company" then
              addUniq acc (lowerStr (r2.getStrD "company" ""))
            else acc)
          acc
        let acc := (d.getArrD "roles").foldl
          (fun acc role =>
            let company := role.getStrD "company" (role.getStrD "company_name" "")
            if company ≠ "" then addUniq acc (lowerStr company) else acc)
          acc
        let acc :=
          (match d.getD "facts_data" (Json.obj []) with
           | .obj kvs => kvs.map Prod.fst
           | _ => []).foldl (fun acc c => addUniq acc (lowerStr c)) acc
        acc)
    s0
  let entries := (collected.filter (· ≠ "")).map fun companyLower =>
    let display := titleStr companyLower
    let factResult := FactsTool.execute env.facts "get_company_details"
      (Json.obj [("company", Json.str companyLower)])
    let factsEntry : List Json :=
      if factResult.hasData then
        match factResult.data with
        | some d => d.getArrD "roles"
        | none => []
      else []
    let semEntries := (enrichCategories companyLower).filterMap fun cq =>
      let semResult := env.semanticSearch cq.2 cq.1 (some companyLower) SEMANTIC_TOP_K
      if semResult.hasData then
        match semResult.data with
        | some d =>
          let results := d.getArrD "results"
          if !results.isEmpty then
            some (cq.1, Json.str
              (String.intercalate "\n\n---\n\n" ((results.take 3).map chunkText)))
          else none
        | none => none
      else none
    (display, Json.obj [("facts", Json.arr factsEntry),
                        ("semantic", Json.obj semEntries)])
  Json.obj entries

/-- `Executor.execute`: dispatch every tool call (recording unknown tool
names in `errors`), then enrich unless the plan is an aggregation or opted
out. -/
def execute (env : Env) (plan : QueryPlan) : ExecutionResult :=
  let step := fun (acc : List ToolResult × List String) (tc : ToolCall) =>
    if tc.tool = "facts_lookup" then (acc.1 ++ [executeFacts env tc plan], acc.2)
    else if tc.tool = "semantic_search" then (acc.1 ++ [executeSemantic env tc.params], acc.2)
    else if tc.tool = "compare_companies" then (acc.1 ++ [executeCompare env tc.params], acc.2)
    else if tc.tool = "hybrid_search" then (acc.1 ++ [executeHybrid env tc.params plan], acc.2)
    else (acc.1, acc.2 ++ ["Unknown tool: " ++ tc.tool])
  let pair := plan.tools_to_use.foldl step ([], [])
  let enriched :=
    if plan.needs_enrichment && plan.intent ≠ "aggregation" then
      some (enrichComprehensive env pair.1 plan)
    else none
  { success := !pair.1.isEmpty && pair.1.any (·.success)
    tool_results := pair.1
    enriched_results := enriched
    errors := pair.2 }

end Executor

/-! ## Critic (`agent/critic.py`)

The LLM itself is an oracle: `llmEval` is the parsed `generate_json` output
of the critic's prompt (`none` when generation or parsing failed).  The
prompt construction (`_summarize_results`) only feeds the oracle and is not
modelled. -/

namespace Critic

/-- `Critic._evaluate_rule_based`: confidence 0.8 with any non-empty data,
0.2 otherwise, retry exactly below the 0.4 threshold. -/
def evaluateRuleBased (_plan : QueryPlan) (result : ExecutionResult) : CriticFeedback :=
  let hasData := result.tool_results.any (·.hasData) ||
    (match result.enriched_results with | some e => e.truthy | none => false)
  let confidence : ℚ := if hasData then 0.8 else 0.2
  { is_complete := hasData
    is_relevant := hasData
    missing_info := []
    suggestions := []
    confidence_score := confidence
    needs_retry := decide (confidence < 0.4)
    retry_suggestions := []
    reasoning := "Rule-based evaluation" }

/-- `Critic._evaluate_with_llm`: the feedback fields are read directly from
the LLM's JSON (with the source's defaults); the source guards the LLM
branch with `if eval_result:`, so unparsable output and falsy parsed values
fall back to the rule-based path.  (As in the planner, a truthy non-dict
JSON value would raise `AttributeError` in the source; no claim depends on
that corner and it is outside this model, which reads the fields through
the defaulting accessors.) -/
def evaluateWithLLM (llmEval : Option Json) (plan : QueryPlan)
    (result : ExecutionResult) : CriticFeedback :=
  match llmEval with
  | some ev =>
    if !ev.truthy then evaluateRuleBased plan result
    else
    { is_complete := (ev.getD "is_complete" (Json.bool false)).truthy
      is_relevant := (ev.getD "is_relevant" (Json.bool false)).truthy
      missing_info := ev.getStrArrD "missing_info"
      suggestions := []
      confidence_score := ev.getNumD "confidence" 0.5
      needs_retry := (ev.getD "needs_retry" (Json.bool false)).truthy
      retry_suggestions :=
        if ev.getTruthy "needs_retry" then [Json.obj [("tool", Json.str "hybrid_search")]]
        else []
      reasoning := ev.getStrD "reasoning" "" }
  | none => evaluateRuleBased plan result

/-- `Critic.evaluate`. -/
def evaluate (useLlm : Bool) (llmEval : Option Json) (plan : QueryPlan)
    (result : ExecutionResult) : CriticFeedback :=
  if useLlm then evaluateWithLLM llmEval plan result
  else evaluateRuleBased plan result

end Critic

/-! ## Synthesizer (`agent/synthesizer.py`)

`llmResponse` is the oracle for the free-text LLM call of
`_synthesize_with_llm` (the empty string models a generation error); the
prompt construction (`_build_context`) only feeds the oracle and is not
modelled.  The non-ASCII literals below reproduce the source bytes
exactly (the source file stores its emoji as mojibake). -/

namespace Synthesizer

/-- `Synthesizer._no_data_response`. -/
def noDataResponse (plan : QueryPlan) : String :=
  "âŒ **No information found**\n\nQuery: \"" ++ plan.original_query ++
  "\"\n\nTry: Check spelling or use 'companies' to see available companies."

/-- One numbered line of the `companies` branch of the aggregation
formatter: `f"{i}. {c}"`. -/
def companiesLine (i : ℕ) (c : Json) : String :=
  toString i ++ ". " ++ pyStr c

/-- One bullet line of the `results` branch of the aggregation formatter
(only built for dict-shaped entries). -/
def resultsLine (r : Json) : String :=
  let company := r.getD "company" (r.getD "company_name" (Json.str "N/A"))
  let role := r.getD "role" (r.getD "role_title" (Json.str ""))
  let stipend := r.getD "stipend" (Json.str "")
  let line := "â€¢ **" ++ pyStr company ++ "**"
  let line := if role.truthy then line ++ " - " ++ pyStr role else line
  let line :=
    match stipend with
    | .obj kvs =>
      if (Json.obj kvs).getTruthy "amount" then
        line ++ " | â‚¹" ++ pyStr ((Json.obj kvs).getD "amount" Json.null) ++ "/month"
      else line
    | _ => line
  line

/-- The parts contributed by one tool result in
`Synthesizer._synthesize_aggregation`: the `companies` branch caps at 25
with an "... and N more" suffix; the `results` branch caps at 20 with no
suffix. -/
def aggregationParts (tr : ToolResult) : List String :=
  if !(tr.success && (match tr.data with | some d => d.truthy | none => false)) then []
  else
    let data := match tr.data with | some d => d | none => Json.null
    if data.hasKey "companies" then
      let companies := data.getArrD "companies"
      let count := companies.length
      let header := "ğŸ“Š **Found " ++ toString count ++ " companies:**\n"
      let numbered := (companies.take 25).enum.map fun ie => companiesLine (ie.1 + 1) ie.2
      let suffix := if count > 25 then ["\n... and " ++ toString (count - 25) ++ " more"] else []
      header :: numbered ++ suffix
    else if data.hasKey "results" then
      let results := data.getArrD "results"
      let count := results.length
      let location := data.getStrD "location" "specified criteria"
      let header := "ğŸ“ **" ++ toString count ++ " companies matching " ++
        location ++ ":**\n"
      header :: ((results.take 20).filter (·.isObj)).map resultsLine
    else []

/-- `Synthesizer._synthesize_aggregation`: deterministic rendering of raw
tool-result shapes (the source's guard skips failed or empty-data tool
results; `data.get("location", "specified criteria")` supplies the
header's criteria text). -/
def synthesizeAggregation (plan : QueryPlan) (result : ExecutionResult) : String :=
  let parts := result.tool_results.flatMap aggregationParts
  if parts.isEmpty then noDataResponse plan
  else String.intercalate "\n" parts

/-- Python `str.upper()` (ASCII). -/
def upperStr (s : String) : String :=
  String.mk (s.toList.map Char.toUpper)

/-- The parts contributed by one enriched company in
`Synthesizer._synthesize_rule_based`. -/
def ruleBasedCompanyParts (wantsSelection wantsSkills : Bool)
    (company : String) (data : Json) : List String :=
  let facts := data.getArrD "facts"
  let semantic := data.getD "semantic" (Json.obj [])
  let header := "\n## ğŸ¢ " ++ upperStr company
  let factParts :=
    if !facts.isEmpty then
      "\n**Roles:**" :: facts.filterMap fun f =>
        match f with
        | .obj kvs =>
          let f := Json.obj kvs
          let role := f.getD "role" (f.getD "role_title" (Json.str "N/A"))
          let stipend := f.getD "stipend" (f.getD "stipend_salary" (Json.obj []))
          some (match stipend with
                | .obj skvs =>
                  if (Json.obj skvs).getTruthy "amount" then
                    "- " ++ pyStr role ++ ": â‚¹" ++
                      pyStr ((Json.obj skvs).getD "amount" Json.null) ++ "/month"
                  else "- " ++ pyStr role
                | _ => "- " ++ pyStr role)
        | _ => none
    else []
  let selParts :=
    if wantsSelection && (semantic.getTruthy "interview_process") then
      ["\n### ğŸ¯ Selection Process:",
       String.mk ((semantic.getStrD "interview_process" "").toList.take 1500)]
    else []
  let skillParts :=
    if wantsSkills && (semantic.getTruthy "skills_required") then
      ["\n### ğŸ› ï¸ Skills:",
       String.mk ((semantic.getStrD "skills_required" "").toList.take 1000)]
    else []
  header :: factParts ++ selParts ++ skillParts

/-- `Synthesizer._synthesize_rule_based`. -/
def synthesizeRuleBased (plan : QueryPlan) (enriched : Json) : String :=
  let ql := lowerStr plan.original_query
  let wantsSelection := ["selection", "interview", "process", "rounds"].any (containsSub ql)
  let wantsSkills := ["skills", "requirements"].any (containsSub ql)
  let parts :=
    (match enriched with
     | .obj kvs => kvs
     | _ => []).flatMap fun kv => ruleBasedCompanyParts wantsSelection wantsSkills kv.1 kv.2
  if parts.isEmpty then noDataResponse plan
  else String.intercalate "\n" parts

/-- `Synthesizer._synthesize_with_llm`: return the LLM text when it is
non-trivial (> 50 characters), else fall back to the rule-based renderer. -/
def synthesizeWithLLM (llmResponse : String) (plan : QueryPlan) (enriched : Json) : String :=
  if llmResponse ≠ "" && llmResponse.length > 50 then llmResponse
  else synthesizeRuleBased plan enriched

/-- `Synthesizer.synthesize`: aggregation intent always takes the
deterministic formatter; otherwise no data at all yields the fixed
"not found" message, and the LLM path (when enabled) yields free text with
a rule-based fallback. -/
def synthesize (useLlm : Bool) (llmResponse : String) (plan : QueryPlan)
    (result : ExecutionResult) (_feedback : CriticFeedback) : String :=
  if plan.intent = "aggregation" then synthesizeAggregation plan result
  else
    let enriched := match result.enriched_results with
                    | some d => if d.truthy then d else Json.obj []
                    | none => Json.obj []
    if !enriched.truthy && result.tool_results.isEmpty then noDataResponse plan
    else if useLlm then synthesizeWithLLM llmResponse plan enriched
    else synthesizeRuleBased plan enriched

end Synthesizer

/-! ## Orchestrator (`agent/orchestrator.py`)

`PlacementAgent.query` is modelled twice, mirroring the same source lines:

* `Agent.query`, over total components (the components built above are
  total functions): used for the retry-loop bound;
* `queryE`, over components in `Except` (a Python call that may raise is a
  function into `Except ε`): `query` contains no `try/except`, so the
  embedding is the plain monadic sequencing of the five component calls —
  used to settle how exceptions propagate. -/

/-- `PlacementAgent.max_retries` (set in `__init__`). -/
def maxRetries : ℕ := 2

/-- `PlacementAgent.min_confidence` (set in `__init__`; never read by
`query`, which branches on `feedback.needs_retry` instead). -/
def minConfidence : ℚ := 0.4

/-- `PlacementAgent._adjust_plan`: coarsen the plan to one call with
`top_k = 10`, on the critic's first suggested tool (or hybrid search by
default, which also sets `fallback_to_hybrid`). -/
def adjustPlan (plan : QueryPlan) (feedback : CriticFeedback) : QueryPlan :=
  let retryParams := Json.obj
    [("query", Json.str plan.original_query),
     ("companies", Json.arr (plan.companies_mentioned.map Json.str)),
     ("top_k", Json.num 10)]
  match feedback.retry_suggestions with
  | suggestion :: _ =>
    { plan with tools_to_use :=
        [{ tool := suggestion.getStrD "tool" "hybrid_search", params := retryParams }] }
  | [] =>
    { plan with
        tools_to_use := [{ tool := "hybrid_search", params := retryParams }]
        fallback_to_hybrid := true }

/-- The orchestrator's components, as oracles (each concrete component of
this file instantiates its slot; arbitrary oracles cover every sequence of
critic feedbacks). -/
structure Agent where
  planner : String → QueryPlan
  executor : QueryPlan → ExecutionResult
  critic : QueryPlan → ExecutionResult → CriticFeedback
  synthesizer : QueryPlan → ExecutionResult → CriticFeedback → String

/-- The `while feedback.needs_retry and retries < self.max_retries` loop of
`PlacementAgent.query`, returning the final plan, execution result,
feedback and retry count. -/
def retryLoop (A : Agent) (maxR : ℕ) (retries : ℕ) (plan : QueryPlan)
    (result : ExecutionResult) (feedback : CriticFeedback) :
    QueryPlan × ExecutionResult × CriticFeedback × ℕ :=
  if h : feedback.needs_retry ∧ retries < maxR then
    let plan2 := adjustPlan plan feedback
    let result2 := A.executor plan2
    let feedback2 := A.critic plan2 result2
    retryLoop A maxR (retries + 1) plan2 result2 feedback2
  else (plan, result, feedback, retries)
termination_by maxR - retries
decreasing_by omega

/-- `PlacementAgent.query` over total components. -/
def Agent.query (A : Agent) (userQuery : String) : AgentResponse :=
  let plan := A.planner userQuery
  let result := A.executor plan
  let feedback := A.critic plan result
  let final := retryLoop A maxRetries 0 plan result feedback
  { answer := A.synthesizer final.1 final.2.1 final.2.2.1
    plan := final.1
    execution := final.2.1
    feedback := final.2.2.1
    retries := final.2.2.2 }

/-- The orchestrator's components when any of them may raise (`Except ε`
models a Python exception of payload `ε`). -/
structure AgentE (ε : Type) where
  planner : String → Except ε QueryPlan
  executor : QueryPlan → Except ε ExecutionResult
  critic : QueryPlan → ExecutionResult → Except ε CriticFeedback
  synthesizer : QueryPlan → ExecutionResult → CriticFeedback → Except ε String

/-- The retry loop with raising components; a raise inside the loop
propagates (the loop body has no handler). -/
def retryLoopE {ε : Type} (A : AgentE ε) (maxR : ℕ) (retries : ℕ)
    (plan : QueryPlan) (result : ExecutionResult) (feedback : CriticFeedback) :
    Except ε (QueryPlan × ExecutionResult × CriticFeedback × ℕ) :=
  if h : feedback.needs_retry ∧ retries < maxR then do
    let plan2 := adjustPlan plan feedback
    let result2 ← A.executor plan2
    let feedback2 ← A.critic plan2 result2
    retryLoopE A maxR (retries + 1) plan2 result2 feedback2
  else pure (plan, result, feedback, retries)
termination_by maxR - retries
decreasing_by omega

/-- `PlacementAgent.query` with raising components: the source installs no
exception handler anywhere in `query`, so the body is the plain sequencing
of plan, execute, critique, the retry loop, and synthesis, and any raise
propagates to the caller. -/
def queryE {ε : Type} (A : AgentE ε) (userQuery : String) : Except ε AgentResponse := do
  let plan ← A.planner userQuery
  let result ← A.executor plan
  let feedback ← A.critic plan result
  let final ← retryLoopE A maxRetries 0 plan result feedback
  let answer ← A.synthesizer final.1 final.2.1 final.2.2.1
  pure { answer := answer
         plan := final.1
         execution := final.2.1
         feedback := final.2.2.1
         retries := final.2.2.2 }

/-! ## Concrete instances used by the scenario claims -/

/-- One strategy of the extraction cascade: regex extraction followed by
`json.loads`. -/
def stratParse (p : ExtractPat) (s : String) : Option Json :=
  (extractPat p s).bind jsonLoads

/-- The three-company facts store of the stipend-filter scenario:
A at 30000, B at 45000, C at 50000. -/
def factsABC : List Json :=
  [Json.obj [("primary_key", Json.str "A_intern"), ("company_name", Json.str "A"),
             ("role_title", Json.str "Intern A"),
             ("stipend_salary", Json.obj [("amount", Json.num 30000)]),
             ("location", Json.arr [Json.str "Chennai"])],
   Json.obj [("primary_key", Json.str "B_intern"), ("company_name", Json.str "B"),
             ("role_title", Json.str "Intern B"),
             ("stipend_salary", Json.obj [("amount", Json.num 45000)]),
             ("location", Json.arr [Json.str "Hyderabad"])],
   Json.obj [("primary_key", Json.str "C_intern"), ("company_name", Json.str "C"),
             ("role_title", Json.str "Intern C"),
             ("stipend_salary", Json.obj [("amount", Json.num 50000)]),
             ("location", Json.arr [Json.str "Pune"])]]

/-- The stipend-filter scenario query. -/
def stipendQuery : String := "List all companies with stipend more than 40000"

/-- An environment whose external stores return nothing (used to
instantiate environment-quantified theorems at a concrete point). -/
def dummyEnv : Env :=
  { semanticSearch := fun q _ _ _ =>
      { success := false, data := none, message := "", tool_name := "semantic_search",
        query := q }
    compareExecute := fun _ =>
      { success := false, data := none, message := "", tool_name := "compare_companies",
        query := "" }
    facts := [] }

/-- An empty execution result. -/
def emptyExecution : ExecutionResult :=
  { success := false, tool_results := [], enriched_results := none, errors := [] }

/-- A feedback value with no retry request. -/
def neutralFeedback : CriticFeedback :=
  { is_complete := true, is_relevant := true, missing_info := [], suggestions := []
    confidence_score := 0.8, needs_retry := false, retry_suggestions := []
    reasoning := "" }

/-- An agent whose planner raises while every other component works. -/
def throwingPlannerAgent : AgentE String :=
  { planner := fun _ => .error "planner raised"
    executor := fun _ => .ok emptyExecution
    critic := fun _ _ => .ok neutralFeedback
    synthesizer := fun _ _ _ => .ok "answer" }

/-- The critic LLM output of the C3 counterexample: confidence 0.35 with
`needs_retry` false (nothing in `_evaluate_with_llm` enforces the 0.4
threshold on it). -/
def lowConfidenceEval : Json :=
  Json.obj [("is_complete", Json.bool true), ("is_relevant", Json.bool true),
            ("confidence", Json.num 0.35), ("needs_retry", Json.bool false)]

/-- A stipend-filter tool result with 21 identical dict rows. -/
def stipendResults21 : ToolResult :=
  { success := true
    data := some (Json.obj
      [("results", Json.arr (List.replicate 21
         (Json.obj [("company", Json.str "B"), ("role", Json.str "Intern"),
                    ("stipend", Json.num 45000)]))),
       ("count", Json.num 21)])
    message := "Found 21 roles with stipend min=40000.0"
    tool_name := "facts_lookup"
    query := "filter_by_stipend:min=40000.0" }

/-! ## Helper lemmas -/

/-- Every branch of the rule-based aggregation planner selects exactly one
tool. -/
theorem planAggregation_tools_len (q : String) (cs : List String) :
    (Planner.planAggregation q cs).tools_to_use.length = 1 := rfl

/-- The comparison planner selects exactly one tool. -/
theorem planComparison_tools_len (q : String) (cs : List String) :
    (Planner.planComparison q cs).tools_to_use.length = 1 := rfl

/-- The hybrid planner selects exactly one tool. -/
theorem planHybrid_tools_len (q : String) (cs : List String) :
    (Planner.planHybrid q cs).tools_to_use.length = 1 := rfl

/-- The rule-based planner always selects exactly one tool. -/
theorem ruleBased_tools_len (query : String) (companies : List String) :
    (Planner.analyzeRuleBased query companies).tools_to_use.length = 1 := by
  unfold Planner.analyzeRuleBased
  dsimp only
  split
  · exact planAggregation_tools_len _ _
  · split
    · exact planComparison_tools_len _ _
    · split
      · exact planHybrid_tools_len _ _
      · exact planHybrid_tools_len _ _

/-- Every plan the LLM path returns (rather than raising) has exactly one
tool. -/
theorem analyzeWithLLM_ok_tools_len (query : String) (detected : List String)
    (llmResult : Option Json) (p : QueryPlan)
    (h : Planner.analyzeWithLLM query detected llmResult = .ok p) :
    p.tools_to_use.length = 1 := by
  unfold Planner.analyzeWithLLM at h
  repeat'
    first
      | (simp only [Except.ok.injEq] at h
         subst h
         first
           | rfl
           | exact ruleBased_tools_len _ _)
      | simp at h
      | split at h

/-- Every plan `Planner.analyze` returns (rather than raising) has exactly
one tool. -/
theorem analyze_ok_tools_len (known : List String) (useLlm : Bool)
    (llmResult : Option Json) (query : String) (p : QueryPlan)
    (h : Planner.analyze known useLlm llmResult query = .ok p) :
    p.tools_to_use.length = 1 := by
  unfold Planner.analyze at h
  split at h
  · exact analyzeWithLLM_ok_tools_len _ _ _ _ h
  · simp only [Except.ok.injEq] at h
    subst h
    exact ruleBased_tools_len _ _

/-- The retry loop never drives the retry counter above the maximum. -/
theorem retryLoop_retries_le (A : Agent) (maxR : ℕ) :
    ∀ (fuel r : ℕ), maxR - r ≤ fuel → r ≤ maxR →
      ∀ p res fb, (retryLoop A maxR r p res fb).2.2.2 ≤ maxR := by
  intro fuel
  induction fuel with
  | zero =>
    intro r hf hr p res fb
    rw [retryLoop]
    have hnot : ¬ (fb.needs_retry ∧ r < maxR) := by
      rintro ⟨-, hlt⟩; omega
    simp [hnot]
    exact hr
  | succ n ih =>
    intro r hf hr p res fb
    rw [retryLoop]
    split
    · exact ih (r + 1) (by omega) (by omega) _ _ _
    · exact hr

/-- The extraction cascade steps through its pattern list one strategy at a
time, taking the first successful parse. -/
theorem tryPats_cons (p : ExtractPat) (rest : List ExtractPat) (s : String) :
    tryPats (p :: rest) s = (stratParse p s).orElse fun _ => tryPats rest s := by
  cases h : extractPat p s
  · simp only [tryPats, h, stratParse, Option.bind]
    simp [Option.orElse]
  · next jstr =>
    cases hj : jsonLoads jstr <;>
      simp [tryPats, h, stratParse, Option.bind, hj, Option.orElse]

/-- An exhausted pattern list yields no result (and the caller falls back). -/
theorem tryPats_nil (s : String) : tryPats [] s = none := rfl

/-! ## The claims -/

/-- C1: for every choice of components (hence every query and every sequence
of critic feedbacks, including one that always requests a retry), the
orchestrator's loop performs at most `max_retries = 2` additional
execute/critique cycles beyond the first, and the returned
`AgentResponse.retries` satisfies `retries ≤ 2` (so at most
`max_retries + 1 = 3` cycles in all). -/
theorem C1_retry_loop_bounded (A : Agent) (q : String) :
    (A.query q).retries ≤ 2 ∧ (A.query q).retries + 1 ≤ 3 := by
  have h := retryLoop_retries_le A maxRetries maxRetries 0 (by omega) (by omega)
    (A.planner q) (A.executor (A.planner q))
    (A.critic (A.planner q) (A.executor (A.planner q)))
  have h2 : (A.query q).retries ≤ 2 := by
    simpa [Agent.query, maxRetries] using h
  exact ⟨h2, by omega⟩

/-- C2 counterexample: `PlacementAgent.query` does not catch component
exceptions — with a planner that raises, `query` propagates the exception
instead of returning a failed `AgentResponse`, contradicting the claim. -/
theorem C2_counterexample :
    queryE throwingPlannerAgent "Compare Dell and Intel" =
      Except.error "planner raised" := rfl

/-- C2 (amended): `PlacementAgent.query` installs no exception handler: an
exception raised by the planner, the executor, or the critic propagates to
the caller unchanged (no failed-`AgentResponse` conversion exists in
`query`). -/
theorem C2_query_propagates {ε : Type} (A : AgentE ε) (q : String) (e : ε)
    (p : QueryPlan) (r : ExecutionResult) :
    (A.planner q = .error e → queryE A q = .error e) ∧
    (A.planner q = .ok p → A.executor p = .error e → queryE A q = .error e) ∧
    (A.planner q = .ok p → A.executor p = .ok r → A.critic p r = .error e →
      queryE A q = .error e) := by
  refine ⟨fun h => ?_, fun h1 h2 => ?_, fun h1 h2 h3 => ?_⟩
  · simp [queryE, h, Bind.bind, Except.bind]
  · simp [queryE, h1, h2, Bind.bind, Except.bind]
  · simp [queryE, h1, h2, h3, Bind.bind, Except.bind]

/-- C2 witness: the amended theorem applied to the concrete raising
planner. -/
theorem C2_query_propagates_witness :
    queryE throwingPlannerAgent "placement query" = Except.error "planner raised" :=
  (C2_query_propagates throwingPlannerAgent "placement query" "planner raised"
    (Planner.planHybrid "placement query" []) emptyExecution).1 rfl

/-- C3 counterexample: a critic LLM result with confidence 0.35 and
`needs_retry` false is passed through unchanged by `_evaluate_with_llm`, so
the produced feedback has `confidence_score < 0.4` with
`needs_retry = false` — the claimed biconditional (and the 0.35 scenario)
fails on the LLM path. -/
theorem C3_counterexample :
    (Critic.evaluate true (some lowConfidenceEval)
      (Planner.planHybrid "what is the stipend" []) emptyExecution).needs_retry = false ∧
    (Critic.evaluate true (some lowConfidenceEval)
      (Planner.planHybrid "what is the stipend" []) emptyExecution).confidence_score < 0.4 := by
  constructor
  · rfl
  · show (0.35 : ℚ) < 0.4
    norm_num

/-- C3 (amended): the 0.4 threshold is enforced only by the rule-based
fallback (taken when the LLM is disabled or its output unparsable), where
`needs_retry ↔ confidence_score < 0.4`; on the LLM path `needs_retry` is
read from the LLM's JSON and is not derived from `confidence_score`. -/
theorem C3_threshold_rule_based_only (useLlm : Bool) (llmEval : Option Json)
    (plan : QueryPlan) (result : ExecutionResult)
    (h : llmEval = none ∨ useLlm = false) :
    ((Critic.evaluate useLlm llmEval plan result).needs_retry = true ↔
      (Critic.evaluate useLlm llmEval plan result).confidence_score < 0.4) := by
  have hrb : ∀ p r, ((Critic.evaluateRuleBased p r).needs_retry = true ↔
      (Critic.evaluateRuleBased p r).confidence_score < 0.4) := by
    intro p r
    simp [Critic.evaluateRuleBased]
  rcases h with h | h
  · subst h
    cases useLlm <;> simp [Critic.evaluate, Critic.evaluateWithLLM, hrb]
  · subst h
    simp [Critic.evaluate, hrb]

/-- C3 witness: the amended theorem at the rule-based fallback on an empty
execution result. -/
theorem C3_threshold_rule_based_only_witness :
    ((Critic.evaluate false none (Planner.planHybrid "q" []) emptyExecution).needs_retry
        = true ↔
      (Critic.evaluate false none (Planner.planHybrid "q" [])
        emptyExecution).confidence_score < 0.4) :=
  C3_threshold_rule_based_only false none (Planner.planHybrid "q" []) emptyExecution
    (Or.inr rfl)

/-- C4 counterexample: `Planner.analyze` can raise for a parsable LLM
response — `\x7b"tool": "x"\x7d` makes `tool_config.get("name", ...)` raise
`AttributeError` (the `tool` field is a string, not a dict), and
`\x7b"companies": "dell"\x7d` makes the list concatenation raise
`TypeError`; both propagate out of `analyze`, so "returns without raising
for every LLM response" is false. -/
theorem C4_counterexample :
    Planner.analyze ["dell"] true (parseJson "\x7b\"tool\": \"x\"\x7d")
        "Tell me about Dell" = .error .attributeError ∧
    Planner.analyze ["dell"] true (parseJson "\x7b\"companies\": \"dell\"\x7d")
        "Tell me about Dell" = .error .typeError :=
  ⟨rfl, rfl⟩

/-- C4 (amended): whenever `Planner.analyze` returns a plan rather than
raising, that plan's `tools_to_use` is non-empty; and for every unparsable
LLM response (malformed text in which `_parse_json` finds no JSON) the
planner does not raise — it returns exactly the rule-based plan (which has
a non-empty `tools_to_use`).  Parsable but ill-typed responses can instead
raise `AttributeError`/`TypeError`, which nothing in the planner catches. -/
theorem C4_plan_tools_nonempty :
    (∀ (known : List String) (useLlm : Bool) (llmResult : Option Json)
       (query : String) (p : QueryPlan),
      Planner.analyze known useLlm llmResult query = .ok p → p.tools_to_use ≠ []) ∧
    (∀ (known : List String) (query response : String), parseJson response = none →
      Planner.analyze known true (parseJson response) query =
        .ok (Planner.analyzeRuleBased query
              (Planner.extractCompaniesFuzzy known query))) := by
  constructor
  · intro known useLlm llmResult query p h
    have hlen := analyze_ok_tools_len known useLlm llmResult query p h
    intro hnil
    rw [hnil] at hlen
    simp at hlen
  · intro known query response h
    rw [h]
    rfl

/-- C4 witness: both parts at concrete inputs — a malformed LLM response
(no JSON at all) yields the rule-based plan, whose `tools_to_use` is
non-empty. -/
theorem C4_plan_tools_nonempty_witness :
    Planner.analyze ["dell"] true (parseJson "I cannot produce a plan.")
        "Tell me about Dell" =
      .ok (Planner.analyzeRuleBased "Tell me about Dell"
            (Planner.extractCompaniesFuzzy ["dell"] "Tell me about Dell")) ∧
    (Planner.analyzeRuleBased "Tell me about Dell"
      (Planner.extractCompaniesFuzzy ["dell"] "Tell me about Dell")).tools_to_use ≠ [] := by
  have h2 := C4_plan_tools_nonempty.2 ["dell"] "Tell me about Dell"
    "I cannot produce a plan." rfl
  exact ⟨h2, C4_plan_tools_nonempty.1 ["dell"] true
    (parseJson "I cannot produce a plan.") "Tell me about Dell" _ h2⟩

/-- C5 counterexample: an LLM planning result with intent `"aggregation"`
and no `is_aggregation` field produces a plan with aggregation intent whose
`needs_enrichment` is true — `needs_enrichment` is derived from
`is_aggregation` alone, not from the intent, so the claimed implication
fails on the LLM path. -/
theorem C5_counterexample :
    Planner.analyze ["dell"] true (some (Json.obj [("intent", Json.str "aggregation")]))
        "how many companies are there" =
      .ok { original_query := "how many companies are there"
            intent := "aggregation"
            tools_to_use := [{ tool := "hybrid_search", action := none,
                               params := Json.obj [] }]
            is_comparison := false
            companies_mentioned := []
            attributes_requested := []
            needs_enrichment := true
            fallback_to_hybrid := false
            reasoning := "LLM analysis" } := rfl

/-- C5 (amended): every rule-based aggregation plan has aggregation intent
with `needs_enrichment = false`; an LLM-produced plan can pair aggregation
intent with `needs_enrichment = true` (when the LLM omits or negates
`is_aggregation`); in every case `Executor.execute` skips the enrichment
pass for a plan with intent `"aggregation"`, leaving `enriched_results`
`None`. -/
theorem C5_aggregation_enrichment :
    (∀ (q : String) (cs : List String),
      (Planner.planAggregation q cs).intent = "aggregation" ∧
      (Planner.planAggregation q cs).needs_enrichment = false) ∧
    (∀ (env : Env) (plan : QueryPlan), plan.intent = "aggregation" →
      (Executor.execute env plan).enriched_results = none) := by
  constructor
  · intro q cs
    exact ⟨rfl, rfl⟩
  · intro env plan h
    unfold Executor.execute
    simp [h]

/-- C5 witness: the executor conclusion at a concrete aggregation plan and
environment. -/
theorem C5_aggregation_enrichment_witness :
    (Executor.execute dummyEnv (Planner.planAggregation "how many companies" [])).enriched_results
      = none :=
  C5_aggregation_enrichment.2 dummyEnv (Planner.planAggregation "how many companies" []) rfl

/-- C6 counterexample: a stipend-filter result set of size `K = 21` renders
as a header plus exactly 20 bullet lines and no "and N more" suffix — the
`results` branch of `_synthesize_aggregation` truncates at 20 silently
(the suffix exists only in the `companies` branch), so neither "length
matches K" nor the claimed suffix holds at K = 21. -/
theorem C6_counterexample :
    Synthesizer.aggregationParts stipendResults21 =
      "ğŸ“ **21 companies matching specified criteria:**\n" ::
        List.replicate 20 "â€¢ **B** - Intern" ∧
    (List.replicate 20 "â€¢ **B** - Intern").length ≠ 21 := by
  constructor
  · rfl
  · decide

/-- C6 (amended): aggregation intent is always rendered by the
deterministic formatter (`synthesize` returns `_synthesize_aggregation`'s
output whatever the LLM would say, so the free-text LLM path is never
used); for a stipend-filter tool result whose `results` list has size K
(all dict-shaped), the rendered parts are one header plus
`min K 20` enumerated lines — capped at 20 with no "and N more" suffix
(the 25-cap-plus-suffix applies only to the `companies` list shape). -/
theorem C6_aggregation_rendering :
    (∀ (useLlm : Bool) (llmResponse : String) (plan : QueryPlan)
       (result : ExecutionResult) (fb : CriticFeedback),
      plan.intent = "aggregation" →
        Synthesizer.synthesize useLlm llmResponse plan result fb =
          Synthesizer.synthesizeAggregation plan result) ∧
    (∀ (results : List Json) (m q : String), (∀ r ∈ results, r.isObj = true) →
      Synthesizer.aggregationParts ⟨true,
          some (Json.obj [("results", Json.arr results),
                          ("count", Json.num results.length)]),
          m, "facts_lookup", q⟩ =
        ("ğŸ“ **" ++ toString results.length ++ " companies matching " ++
          "specified criteria" ++ ":**\n") ::
          (results.take 20).map Synthesizer.resultsLine ∧
      ((results.take 20).map Synthesizer.resultsLine).length = min 20 results.length) := by
  constructor
  · intro useLlm llmResponse plan result fb h
    unfold Synthesizer.synthesize
    simp [h]
  · intro results m q h
    constructor
    · unfold Synthesizer.aggregationParts
      have hf : (results.take 20).filter (·.isObj) = results.take 20 :=
        List.filter_eq_self.mpr (fun r hr => h r (List.mem_of_mem_take hr))
      simp [Json.hasKey, Json.get, Json.getArrD, Json.getStrD, ToolResult.hasData,
        Json.truthy, hf]
    · simp [List.length_take]

/-- C6 witness: the rendering shape at a concrete one-row stipend-filter
result. -/
theorem C6_aggregation_rendering_witness :
    Synthesizer.aggregationParts ⟨true,
        some (Json.obj [("results", Json.arr [Json.obj [("company", Json.str "B")]]),
                        ("count", Json.num 1)]),
        "msg", "facts_lookup", "filter_by_stipend:min=40000.0"⟩ =
      ("ğŸ“ **" ++ toString 1 ++ " companies matching " ++
        "specified criteria" ++ ":**\n") ::
        [Json.obj [("company", Json.str "B")]].map Synthesizer.resultsLine ∧
    ([Json.obj [("company", Json.str "B")]].map Synthesizer.resultsLine).length = 1 := by
  have h := (C6_aggregation_rendering.2 [Json.obj [("company", Json.str "B")]]
    "msg" "filter_by_stipend:min=40000.0" (by decide))
  exact ⟨h.1, h.2⟩

/-- C7 counterexample: on an object with only a trailing comma, every
strategy of `_parse_json` fails and it returns nothing, while the
spec-modelled chain (with its fourth, trailing-comma-repair strategy)
succeeds — the code has no trailing-comma repair. -/
theorem C7_counterexample :
    parseJson "\x7b\"a\": 1,\x7d" = none ∧
    parseJsonSpec "\x7b\"a\": 1,\x7d" = some (Json.obj [("a", Json.num 1)]) :=
  ⟨rfl, rfl⟩

/-- C7 (amended): `_parse_json` tries direct parse, ```` ```json ````-fenced
extraction, `` ``` ``-fenced extraction, and greedy brace extraction, in
that order, returns the first successful parse, and on failure of every
strategy returns no result (it is a total function, so the caller falls
back to its rule-based path); there is no trailing-comma-repair strategy. -/
theorem C7_extraction_chain (s : String) :
    parseJson s =
      if s = "" then none
      else
        (jsonLoads s).orElse fun _ =>
          (stratParse .fencedJson s).orElse fun _ =>
            (stratParse .fenced s).orElse fun _ => stratParse .brace s := by
  unfold parseJson
  split
  · rfl
  · cases hj : jsonLoads s
    · simp only [hj, tryPats_cons, tryPats_nil]
      cases s1 : stratParse ExtractPat.fencedJson s <;>
        cases s2 : stratParse ExtractPat.fenced s <;>
          cases s3 : stratParse ExtractPat.brace s <;>
            simp [Option.orElse]
    · simp [hj, Option.orElse]

/-- C8: the scenario query against the A/B/C facts store: the rule-based
planner yields an aggregation plan whose single tool call is
`facts_lookup` / `filter_by_stipend` with `min_value = 40000`, and
executing the plan returns one successful tool result whose `results`
enumerate exactly the roles of B and C (for any semantic/compare store). -/
theorem C8_stipend_scenario (sem : String → String → Option String → ℚ → ToolResult)
    (comp : Json → ToolResult) :
    Planner.analyze ["A", "B", "C"] false none stipendQuery =
      .ok (Planner.analyzeRuleBased stipendQuery
            (Planner.extractCompaniesFuzzy ["A", "B", "C"] stipendQuery)) ∧
    (Planner.analyzeRuleBased stipendQuery
      (Planner.extractCompaniesFuzzy ["A", "B", "C"] stipendQuery)).intent
        = "aggregation" ∧
    (Planner.analyzeRuleBased stipendQuery
      (Planner.extractCompaniesFuzzy ["A", "B", "C"] stipendQuery)).tools_to_use =
      [{ tool := "facts_lookup", action := some "filter_by_stipend",
         params := Json.obj [("min_value", Json.num 40000)] }] ∧
    Executor.execute ⟨sem, comp, factsABC⟩
        (Planner.analyzeRuleBased stipendQuery
          (Planner.extractCompaniesFuzzy ["A", "B", "C"] stipendQuery)) =
      { success := true
        tool_results := [{ success := true
                           data := some (Json.obj
                             [("results", Json.arr
                                [Json.obj [("company", Json.str "B"),
                                           ("role", Json.str "Intern B"),
                                           ("stipend", Json.num 45000),
                                           ("location", Json.arr [Json.str "Hyderabad"])],
                                 Json.obj [("company", Json.str "C"),
                                           ("role", Json.str "Intern C"),
                                           ("stipend", Json.num 50000),
                                           ("location", Json.arr [Json.str "Pune"])]]),
                              ("count", Json.num 2)])
                           message := "Found 2 roles with stipend min=40000.0"
                           tool_name := "facts_lookup"
                           query := "filter_by_stipend:min=40000.0" }]
        enriched_results := none
        errors := [] } := by
  refine ⟨rfl, rfl, rfl, ?_⟩
  simp only [Executor.execute, Executor.executeFacts,
    show (Env.mk sem comp factsABC).facts = factsABC from rfl]
  rfl

/-- C9: every query with no aggregation/filter trigger phrase and at least
two extracted known companies is classified as comparison by the rule-based
planner; and the concrete query "Compare Dell and Intel" yields intent
comparison, companies exactly dell and intel, and a single
`compare_companies` tool selection. -/
theorem C9_comparison_intent :
    (∀ (known : List String) (query : String),
      Planner.analyze known false none query =
        .ok (Planner.analyzeRuleBased query
              (Planner.extractCompaniesFuzzy known query))) ∧
    (∀ (known : List String) (query : String),
      (["how many", "list all", "which companies", "count"].any
        (containsSub (lowerStr query))) = false →
      (["companies in", "companies with", "stipend more", "cgpa less"].any
        (containsSub (lowerStr query))) = false →
      2 ≤ (Planner.extractCompaniesFuzzy known query).length →
      (Planner.analyzeRuleBased query
        (Planner.extractCompaniesFuzzy known query)).intent = "comparison") ∧
    ((Planner.analyzeRuleBased "Compare Dell and Intel"
        (Planner.extractCompaniesFuzzy ["Dell", "Intel"] "Compare Dell and Intel")).intent
        = "comparison" ∧
     (Planner.analyzeRuleBased "Compare Dell and Intel"
        (Planner.extractCompaniesFuzzy ["Dell", "Intel"]
          "Compare Dell and Intel")).companies_mentioned = ["dell", "intel"] ∧
     (Planner.analyzeRuleBased "Compare Dell and Intel"
        (Planner.extractCompaniesFuzzy ["Dell", "Intel"]
          "Compare Dell and Intel")).tools_to_use
        = [{ tool := "compare_companies"
             params := Json.obj
               [("companies", Json.arr [Json.str "dell", Json.str "intel"]),
                ("comparison_type", Json.str "detailed")] }]) := by
  refine ⟨fun known query => rfl, ?_, rfl, rfl, rfl⟩
  intro known query h1 h2 hc
  unfold Planner.analyzeRuleBased
  simp only [h1, h2]
  simp [Planner.planComparison, hc]

/-- C9 witness: the universal part applied to the concrete Dell/Intel
query. -/
theorem C9_comparison_intent_witness :
    (Planner.analyzeRuleBased "Compare Dell and Intel"
      (Planner.extractCompaniesFuzzy ["Dell", "Intel"] "Compare Dell and Intel")).intent
      = "comparison" :=
  C9_comparison_intent.2.1 ["Dell", "Intel"] "Compare Dell and Intel" rfl rfl (by decide)

/-- C10: `Executor._execute_hybrid` issues its semantic search with the
fixed `SEMANTIC_TOP_K = 3` and never reads the params' `top_k`: two
executions of the same plan whose params differ only in `top_k` (for any
values, e.g. the retry plan's 10) produce identical `ToolResult`s against
the same stores. -/
theorem C10_hybrid_ignores_top_k (env : Env) (plan : QueryPlan) (q : String)
    (cs : List String) (k1 k2 : ℚ) :
    Executor.SEMANTIC_TOP_K = 3 ∧
    Executor.executeHybrid env
        (Json.obj [("query", Json.str q),
                   ("companies", Json.arr (cs.map Json.str)),
                   ("top_k", Json.num k1)]) plan =
      Executor.executeHybrid env
        (Json.obj [("query", Json.str q),
                   ("companies", Json.arr (cs.map Json.str)),
                   ("top_k", Json.num k2)]) plan :=
  ⟨rfl, rfl⟩

end Placements
